import Mathlib

/-!
Verification of the torah_bot repository (single source file `bot.py`).

The development shallowly embeds the data model and the handlers of the bot:
pure Python functions become Lean functions; the process-wide mutable state
(the `USER_SETTINGS` registry, the `TIMEZONE_AWAIT_USERS` set and the
APScheduler job store) becomes an explicit `BotState` value threaded through
the handlers; messages sent to the user and text-generation calls become an
explicit list of `Event`s; an uncaught Python exception becomes the `error`
case of `Except`.

External facilities are abstracted by parameters kept at the call boundary:
`tzValid : String → Bool` stands for membership in the IANA timezone database
(`ZoneInfo(name)` succeeding), `oracle : String → Option String` stands for
the OpenAI chat-completion call on the assembled user prompt (`none` = the
call raised), and the possibility that `scheduler.add_job` raises is encoded
by the `failOn` oracle inside `SchedState`.
-/

namespace TorahBot

/-- Python enum `Language` (`bot.py`): values `ru`, `en`. -/
inductive Language where
  | ru
  | en
deriving DecidableEq

/-- String value of a `Language` member, as in the Python `str` enum. -/
def Language.code : Language → String
  | .ru => "ru"
  | .en => "en"

/-- Python enum `KnowledgeLevel` (`bot.py`): integer values 1, 2, 3. -/
inductive KnowledgeLevel where
  | level1
  | level2
  | level3
deriving DecidableEq

/-- Integer value of a `KnowledgeLevel` member (`int(settings.level)`). -/
def KnowledgeLevel.toInt : KnowledgeLevel → Int
  | .level1 => 1
  | .level2 => 2
  | .level3 => 3

/-- Python enum `Style` (`bot.py`): values `friend`, `story`, `rabbi`. -/
inductive Style where
  | friend
  | story
  | rabbi
deriving DecidableEq

/-- String value of a `Style` member. -/
def Style.code : Style → String
  | .friend => "friend"
  | .story => "story"
  | .rabbi => "rabbi"

/-- Python enum `SendTime` (`bot.py`): values `morning`, `day`, `evening`, `anytime`. -/
inductive SendTime where
  | morning
  | day
  | evening
  | anytime
deriving DecidableEq

/-- Class `UserSettings` (`bot.py`): one record per subscriber.  `job_ids` is
the Python dict mapping logical job name to the scheduler-assigned job
identifier, embedded as an association list; scheduler job identifiers are
opaque in the source (APScheduler-generated strings) and are embedded as
natural numbers handed out by a fresh-id counter. -/
structure UserSettings where
  user_id : Nat
  language : Language
  level : KnowledgeLevel
  style : Style
  send_time : SendTime
  timezone : String
  job_ids : List (String × Nat)
deriving DecidableEq

/-- Constructor `UserSettings.__init__` with all defaulted arguments: `language=RU`,
`level=LEVEL1`, `style=FRIEND`, `send_time=ANYTIME`, `timezone="Asia/Dubai"`,
`job_ids = {}`. -/
def UserSettings.init (user_id : Nat) : UserSettings :=
  { user_id := user_id
    language := Language.ru
    level := KnowledgeLevel.level1
    style := Style.friend
    send_time := SendTime.anytime
    timezone := "Asia/Dubai"
    job_ids := [] }

/-- Python `str.startswith`, embedded on the character lists of the strings. -/
def strStartsWith (s p : String) : Bool :=
  p.data.isPrefixOf s.data

/-- Python `str.removeprefix`: drops `p` from the front of `s` when `s`
starts with `p`, otherwise returns `s` unchanged. -/
def strRemovePrefix (s p : String) : String :=
  if strStartsWith s p then String.mk (s.data.drop p.data.length) else s

/-- Embedding of `map_send_time_to_hour_minute` (`bot.py` lines 147-155): the if-chain
mapping a `SendTime` to the delivery `(hour, minute)`; the final return is
the fallback for `ANYTIME` and anything unrecognized. -/
def map_send_time_to_hour_minute (send_time : SendTime) : Nat × Nat :=
  if send_time = SendTime.morning then (9, 0)
  else if send_time = SendTime.day then (13, 0)
  else if send_time = SendTime.evening then (20, 0)
  else (12, 0)

/-- Embedding of `get_current_parsha` (`bot.py`): hard-coded placeholder portion name. -/
def get_current_parsha : String :=
  "Vayishlach"

/-- Embedding of `build_user_prompt` (`bot.py` lines 167-214): assembles the per-call user
instruction from the language directive, portion name, level, style, mode and
the mode-specific core directive. -/
def build_user_prompt (language : String) (level : Int) (style parsha_name mode : String) :
    String :=
  let langDirective : String :=
    if language = "ru" then "Пиши по-русски."
    else "Write in clear, simple English."
  let core : String :=
    if mode = "sunday_main" then
      "Сделай основное объяснение недельной главы. Сначала коротко расскажи события главы, затем мягко объясни смысл, и в конце добавь современное человеческое объяснение."
    else if mode = "midweek_detail" then
      "Выбери один интересный момент из этой недельной главы и объясни его. Покажи, чем он важен, и добавь мягкую человеческую мысль."
    else if mode = "friday_toast" then
      "Сделай текст строго из трех предложений. 1) Напомни один момент из главы. 2) Дай простую теплую мудрость. 3) Сформулируй фразу, которую можно сказать семье или друзьям за столом."
    else if mode = "onboarding_now" then
      "Сначала одной фразой скажи, что обычно объяснение приходит по воскресеньям, но сейчас ты отправляешь объяснение текущей главы, чтобы человек не пропустил неделю. Потом сделай объяснение главы так же, как в воскресной версии."
    else
      "Сделай объяснение недельной главы так же, как в воскресной версии."
  langDirective ++
    ("\nНедельная глава: " ++ parsha_name ++ ".\nУровень знания: " ++ toString level ++
      ".\nСтиль: " ++ style ++ ".\nТип сообщения: " ++ mode ++ ".\n" ++ core)

/-- Embedding of `generate_parsha_text` (`bot.py` lines 217-241): resolves the portion name
(defaulting to the portion stub), builds the user prompt, performs the
chat-completion call (abstracted by `oracle`; `none` models the call raising)
and strips the returned content. -/
def generate_parsha_text (oracle : String → Option String) (settings : UserSettings)
    (mode : String) (parsha_name : Option String) : Option String :=
  let parsha := parsha_name.getD get_current_parsha
  let user_prompt :=
    build_user_prompt settings.language.code settings.level.toInt settings.style.code
      parsha mode
  (oracle user_prompt).map (fun s => s.trim)

/-- One recurring weekly trigger registered with the scheduler
(`scheduler.add_job(..., trigger=CronTrigger(day_of_week=..., hour=...,
minute=..., timezone=...), args=[bot, user_id])`). -/
structure JobRec where
  id : Nat
  day_of_week : String
  hour : Nat
  minute : Nat
  tz : String
  target_user : Nat
deriving DecidableEq

/-- The APScheduler job store.  `jobs` is the list of currently registered
triggers, `nextId` the fresh-identifier counter (APScheduler assigns an opaque
fresh id to each added job), `calls` counts `add_job` invocations, and
`failOn` is the fault oracle deciding whether a given `add_job` invocation
raises (the source never catches such an exception inside
`schedule_jobs_for_user`; the onboarding caller does). -/
structure SchedState where
  jobs : List JobRec
  nextId : Nat
  calls : Nat
  failOn : Nat → Bool

/-- Operation `scheduler.remove_job(job_id)` wrapped in the try/except-pass of
the caller: removes the first job with the given id if present,
otherwise the `JobLookupError` is swallowed and the store is unchanged. -/
def removeJobList (jobs : List JobRec) (jid : Nat) : List JobRec :=
  match jobs with
  | [] => []
  | j :: rest => if j.id = jid then rest else j :: removeJobList rest jid

/-- Job removal lifted to the scheduler state. -/
def removeJobState (sch : SchedState) (jid : Nat) : SchedState :=
  { sch with jobs := removeJobList sch.jobs jid }

/-- The cancellation loop of `schedule_jobs_for_user`:
`for job_id in settings.job_ids.values(): try: scheduler.remove_job(job_id)
except Exception: pass`. -/
def cancelAll (sch : SchedState) (ids : List (String × Nat)) : SchedState :=
  ids.foldl (fun s kv => removeJobState s kv.2) sch

/-- Operation `scheduler.add_job` for one weekly cron trigger: either raises (the
`failOn` oracle fires for this invocation) or registers a fresh job and
returns its identifier. -/
def addJob (sch : SchedState) (day : String) (hour minute : Nat) (tz : String)
    (user : Nat) : Option (Nat × SchedState) :=
  if sch.failOn sch.calls then none
  else
    some (sch.nextId,
      { sch with
        jobs := sch.jobs ++ [⟨sch.nextId, day, hour, minute, tz, user⟩]
        nextId := sch.nextId + 1
        calls := sch.calls + 1 })

/-- Outcome of `schedule_jobs_for_user`: `ok = false` means the routine raised
(in one of the `add_job` calls); because Python mutates `settings` and the
scheduler in place, the mutated values are visible to the caller in either
case. -/
structure SchedResult where
  ok : Bool
  settings : UserSettings
  sched : SchedState

/-- The three sequential `add_job` calls of `schedule_jobs_for_user`
(`bot.py` lines 299-313): `sun`, `wed`, `fri` triggers at the same hour,
minute and timezone.  On a raise, the scheduler state reached so far (with
any already-added jobs) is what the exception handler observes. -/
def addWeeklyJobs (sch1 : SchedState) (hour minute : Nat) (tz : String) (user : Nat) :
    Except SchedState ((Nat × Nat × Nat) × SchedState) :=
  match addJob sch1 "sun" hour minute tz user with
  | none => Except.error sch1
  | some (jobSun, sched2) =>
    match addJob sched2 "wed" hour minute tz user with
    | none => Except.error sched2
    | some (jobMid, sched3) =>
      match addJob sched3 "fri" hour minute tz user with
      | none => Except.error sched3
      | some (jobFri, sched4) => Except.ok ((jobSun, jobMid, jobFri), sched4)

/-- Tail of `schedule_jobs_for_user` (`bot.py` lines 315-319): on success,
record the three new identifiers under `sunday`, `midweek`, `friday`; on a
raise, the caller sees `job_ids` still empty and the scheduler as reached. -/
def finishSchedule (settings2 : UserSettings)
    (r : Except SchedState ((Nat × Nat × Nat) × SchedState)) : SchedResult :=
  match r with
  | Except.error schedF => { ok := false, settings := settings2, sched := schedF }
  | Except.ok ((jobSun, jobMid, jobFri), sched4) =>
    { ok := true
      settings :=
        { settings2 with
          job_ids := [("sunday", jobSun), ("midweek", jobMid), ("friday", jobFri)] }
      sched := sched4 }

/-- Embedding of `schedule_jobs_for_user` (`bot.py` lines 282-321): cancels every job id
recorded in `settings.job_ids` (lookup errors swallowed), resets `job_ids`
to empty, resolves `(hour, minute)` from `send_time`, resolves the timezone
with silent fallback to `"Asia/Dubai"` (also overwriting
`settings.timezone`), then registers the three weekly triggers (`sun`, `wed`,
`fri`) and records their identifiers under `sunday`, `midweek`, `friday`. -/
def schedule_jobs_for_user (tzValid : String → Bool) (settings : UserSettings)
    (sched0 : SchedState) : SchedResult :=
  let sched1 := cancelAll sched0 settings.job_ids
  let settings1 : UserSettings := { settings with job_ids := [] }
  let hm := map_send_time_to_hour_minute settings1.send_time
  let settings2 : UserSettings :=
    if tzValid settings1.timezone then settings1
    else { settings1 with timezone := "Asia/Dubai" }
  finishSchedule settings2 (addWeeklyJobs sched1 hm.1 hm.2 settings2.timezone settings2.user_id)

/-- Observable effect of a handler: a message sent (or edited) for the user,
carrying its text and the `callback_data` values of its inline keyboard, or a
text-generation call (`generate_parsha_text`) with its mode and portion name. -/
inductive Event where
  | send : String → List String → Event
  | genCall : String → String → Event
deriving DecidableEq

/-- The process-wide mutable state: the `USER_SETTINGS` registry, the
`TIMEZONE_AWAIT_USERS` set and the scheduler job store. -/
structure BotState where
  users : Nat → Option UserSettings
  await : Nat → Bool
  sched : SchedState

/-- Assignment `USER_SETTINGS[uid] = s`. -/
def BotState.setUser (st : BotState) (uid : Nat) (s : UserSettings) : BotState :=
  { st with users := fun u => if u = uid then some s else st.users u }

/-- Operations `TIMEZONE_AWAIT_USERS.add(uid)` / `TIMEZONE_AWAIT_USERS.discard(uid)`. -/
def BotState.setAwait (st : BotState) (uid : Nat) (b : Bool) : BotState :=
  { st with await := fun u => if u = uid then b else st.await u }

/-- Greeting of `/start` (`bot.py` lines 336-339). -/
def START_TEXT : String :=
  "Я объясняю недельную главу Торы простым языком - без терминов и без давления.\n\nДля начала выбери язык:"

/-- Static text of `/help` (`bot.py` lines 347-351). -/
def HELP_TEXT : String :=
  "/start - начать и настроить бота заново\n/parsha - объяснение текущей недельной главы\n/help - краткая помощь\n"

/-- Reply of `/parsha` when the user has no settings (`bot.py` line 359). -/
def PARSHA_NEED_START : String :=
  "Сначала введи /start, чтобы настроить бота."

/-- Delivery-time prompt after `lang_ru` (`bot.py` lines 383-388). -/
def RU_TIME_PROMPT : String :=
  "Язык: русский.\n\nТеперь выбери, когда тебе удобнее получать сообщения:\n\n☀️ Утром\n🌤 Днем\n🌇 Вечером\n🔄 Не важно\n\nЭто можно изменить в будущем."

/-- Delivery-time prompt after `lang_en` (`bot.py` lines 404-409). -/
def EN_TIME_PROMPT : String :=
  "Language set to English.\n\nNow choose when you prefer to receive the messages:\n\n☀️ Morning\n🌤 Day\n🌇 Evening\n🔄 Any time\n\nYou can change this later."

/-- Timezone prompt for Russian-language users (`bot.py` lines 435-438). -/
def RU_TZ_PROMPT : String :=
  "Теперь выбери свой часовой пояс, чтобы сообщения приходили в твое местное время.\n\nЕсли не видишь нужный вариант - нажми «📍 Другое» и напиши, например: Europe/Berlin или America/New_York."

/-- Timezone prompt for English-language users (`bot.py` lines 460-463). -/
def EN_TZ_PROMPT : String :=
  "Now choose your time zone so that messages arrive in your local time.\n\nIf you do not see your option - tap “📍 Other” and send something like: Europe/Berlin or America/New_York."

/-- Knowledge-level prompt (Russian) in the preset-timezone branch
(`bot.py` lines 496-502). -/
def RU_LEVEL_PROMPT : String :=
  "Выбери, насколько ты знаком(а) с недельными главами:\n\n1) «Мало интересовался, хочу понимать»\n2) «Слышал, знаю немного, но не углублялся»\n3) «Знаком с основами, хочу структурнее»\n\nЭто можно изменить в любой момент 🙂"

/-- Knowledge-level prompt (English) in the preset-timezone branch
(`bot.py` lines 504-510). -/
def EN_LEVEL_PROMPT : String :=
  "Choose your familiarity level with the weekly Torah portion:\n\n1) “I have not really studied, I just want to understand the basics”\n2) “I have heard things, I know a bit but not deeply”\n3) “I know the basics and want more structure”\n\nYou can change this anytime 🙂"

/-- Free-text timezone instruction, Russian (`bot.py` lines 525-527). -/
def RU_CUSTOM_TZ : String :=
  "Напиши свой часовой пояс текстом, например: Europe/Berlin, Asia/Jerusalem, America/New_York."

/-- Free-text timezone instruction, English (`bot.py` lines 529-531). -/
def EN_CUSTOM_TZ : String :=
  "Please type your time zone, for example: Europe/Berlin, Asia/Jerusalem, America/New_York."

/-- Style prompt, Russian (`bot.py` lines 544-556). -/
def RU_STYLE_PROMPT : String :=
  "Как тебе было бы комфортнее получать объяснения недельных глав?\n\n🧑‍🤝‍🧑 Как другу\n— Я объясняю простым разговорным языком, без лишних формальностей.\nПример: «Смотри, в этой главе происходит вот что… и вот почему это важно.»\n\n📖 Как рассказ\n— Плавно, спокойно, как короткую историю.\nПример: «Глава начинается с того, что… шаг за шагом события раскрывают идею.»\n\n📌 Как раввин\n— По пунктам и структурно, но простым языком.\nПример: «1) Сначала происходит это. 2) Затем — это. 3) А смысл такой.»\n\nВыбери стиль — его можно поменять в любой момент 😊"

/-- Style prompt, English (`bot.py` lines 558-570). -/
def EN_STYLE_PROMPT : String :=
  "How would you like me to explain the weekly portions?\n\n🧑‍🤝‍🧑 Like a friend\n— Warm, simple, conversational.\nExample: “So here’s what’s happening in this week’s portion, and why it matters.”\n\n📖 Like a story\n— Smooth and narrative, like a short chapter.\nExample: “The portion opens with… and step by step the story reveals its idea.”\n\n📌 Like a rabbi\n— Structured and clear, but easy to understand.\nExample: “1) This happens first. 2) Then this. 3) And here is the idea.”\n\nChoose the style — you can change it anytime 😊"

/-- Scheduling-failure apology in the `style_*` step (`bot.py` lines 599-603). -/
def SCHED_FAIL_TEXT : String :=
  "Онбординг почти готов. Возникла ошибка при настройке расписания, но бот всё равно работает.\nЕсли что — ты всегда можешь получить главу командой /parsha."

/-- Generation-failure apology in the `style_*` step (`bot.py` lines 616-619). -/
def GEN_FAIL_TEXT : String :=
  "Онбординг завершён! Но произошла ошибка при генерации текста.\nПопробуй команду /parsha немного позже."

/-- Reply of the free-text timezone handler when settings are missing
(`bot.py` line 635). -/
def TZ_TEXT_NEED_START : String :=
  "Сначала введи /start."

/-- Retry request of the free-text timezone handler, Russian (`bot.py`
lines 644-646). -/
def RU_TZ_RETRY : String :=
  "Не смог распознать часовой пояс. Попробуй еще раз, например: Europe/Berlin или America/New_York."

/-- Retry request of the free-text timezone handler, English (`bot.py`
lines 648-650). -/
def EN_TZ_RETRY : String :=
  "I could not recognize this time zone. Please try again, e.g. Europe/Berlin or America/New_York."

/-- Knowledge-level prompt (Russian) after successful free-text timezone
entry (`bot.py` lines 655-661). -/
def RU_LEVEL_PROMPT2 : String :=
  "Отлично! Теперь выбери, насколько ты знаком(а) с недельными главами:\n\n1) «Мало интересовался, хочу понимать»\n2) «Слышал, знаю немного, но не углублялся»\n3) «Знаком с основами, хочу структурнее»\n\nЭто можно изменить в любой момент 🙂"

/-- Knowledge-level prompt (English) after successful free-text timezone
entry (`bot.py` lines 663-669). -/
def EN_LEVEL_PROMPT2 : String :=
  "Great! Now choose your familiarity level with the weekly Torah portion:\n\n1) “I have not really studied, I just want to understand the basics”\n2) “I have heard things, I know a bit but not deeply”\n3) “I know the basics and want more structure”\n\nYou can change this anytime 🙂"

/-- The `callback_data` values of the language keyboard of `/start`. -/
def langButtons : List String :=
  ["lang_ru", "lang_en"]

/-- The `callback_data` values of the delivery-time keyboard. -/
def timeButtons : List String :=
  ["time_morning", "time_day", "time_evening", "time_anytime"]

/-- The `callback_data` values of the timezone keyboard shown to Russian-language
users (`bot.py` lines 439-458). -/
def ruTzButtons : List String :=
  ["tz_Asia/Jerusalem", "tz_Europe/Moscow", "tz_Europe/Berlin", "tz_Asia/Dubai",
    "tz_America/New_York", "tz_custom"]

/-- The `callback_data` values of the timezone keyboard shown to English-language
users (`bot.py` lines 464-480). -/
def enTzButtons : List String :=
  ["tz_Asia/Jerusalem", "tz_Europe/Berlin", "tz_Asia/Dubai", "tz_America/New_York",
    "tz_custom"]

/-- The `callback_data` values of the knowledge-level keyboard. -/
def levelButtons : List String :=
  ["level_1", "level_2", "level_3"]

/-- The `callback_data` values of the style keyboard. -/
def styleButtons : List String :=
  ["style_friend", "style_story", "style_rabbi"]

/-- The lazy-creation read of `button_handler` (`bot.py` lines 373-376): the
stored settings of the user, or a fresh default record when none exist. -/
def settingsOf (st : BotState) (uid : Nat) : UserSettings :=
  match st.users uid with
  | some s => s
  | none => UserSettings.init uid

/-- The `mapping` dict of the `time_*` branch (`bot.py` lines 425-431);
`none` models the `KeyError` of the unguarded `mapping[data]` lookup. -/
def timeMapping (data : String) : Option SendTime :=
  if data = "time_morning" then some SendTime.morning
  else if data = "time_day" then some SendTime.day
  else if data = "time_evening" then some SendTime.evening
  else if data = "time_anytime" then some SendTime.anytime
  else none

/-- The `mapping` dict of the `level_*` branch (`bot.py` lines 536-541);
`none` models the `KeyError` of the unguarded `mapping[data]` lookup. -/
def levelMapping (data : String) : Option KnowledgeLevel :=
  if data = "level_1" then some KnowledgeLevel.level1
  else if data = "level_2" then some KnowledgeLevel.level2
  else if data = "level_3" then some KnowledgeLevel.level3
  else none

/-- The `mapping.get(data, Style.FRIEND)` lookup of the `style_*` branch
(`bot.py` lines 587-592): total, with `friend` as the default. -/
def styleMapping (data : String) : Style :=
  if data = "style_friend" then Style.friend
  else if data = "style_story" then Style.story
  else if data = "style_rabbi" then Style.rabbi
  else Style.friend

/-- The `lang_ru` / `lang_en` branch of `button_handler` (`bot.py` lines 381-421):
sets `language` and shows the delivery-time keyboard. -/
def langStep (lang : Language) (uid : Nat) (settings : UserSettings) (st0 : BotState) :
    Except String (BotState × List Event) :=
  let settings1 := { settings with language := lang }
  Except.ok (st0.setUser uid settings1,
    [Event.send (if lang = Language.ru then RU_TIME_PROMPT else EN_TIME_PROMPT) timeButtons])

/-- The `time_*` branch of `button_handler` (`bot.py` lines 424-483): sets
`send_time` via the unguarded dict lookup and shows the timezone keyboard of
the language of the user. -/
def timeStep (uid : Nat) (data : String) (settings : UserSettings) (st0 : BotState) :
    Except String (BotState × List Event) :=
  match timeMapping data with
  | none => Except.error "KeyError"
  | some t =>
    let settings1 := { settings with send_time := t }
    let st1 := st0.setUser uid settings1
    if settings1.language = Language.ru then
      Except.ok (st1, [Event.send RU_TZ_PROMPT ruTzButtons])
    else
      Except.ok (st1, [Event.send EN_TZ_PROMPT enTzButtons])

/-- Preset-timezone branch of `button_handler` (`bot.py` lines 486-519):
validates the name behind the `tz_` marker against the timezone database,
falls back silently to `"Asia/Dubai"`, and shows the level keyboard. -/
def tzStep (tzValid : String → Bool) (uid : Nat) (data : String)
    (settings : UserSettings) (st0 : BotState) : Except String (BotState × List Event) :=
  let tz_name := strRemovePrefix data "tz_"
  let settings1 :=
    if tzValid tz_name then { settings with timezone := tz_name }
    else { settings with timezone := "Asia/Dubai" }
  let st1 := st0.setUser uid settings1
  Except.ok (st1,
    [Event.send (if settings1.language = Language.ru then RU_LEVEL_PROMPT else EN_LEVEL_PROMPT)
      levelButtons])

/-- The `tz_custom` branch of `button_handler` (`bot.py` lines 522-532): adds the
user to the pending-timezone-entry set and asks for free text. -/
def tzCustomStep (uid : Nat) (settings : UserSettings) (st0 : BotState) :
    Except String (BotState × List Event) :=
  let st1 := st0.setAwait uid true
  Except.ok (st1,
    [Event.send (if settings.language = Language.ru then RU_CUSTOM_TZ else EN_CUSTOM_TZ) []])

/-- The `level_*` branch of `button_handler` (`bot.py` lines 535-583): sets
`level` via the unguarded dict lookup and shows the style keyboard. -/
def levelStep (uid : Nat) (data : String) (settings : UserSettings) (st0 : BotState) :
    Except String (BotState × List Event) :=
  match levelMapping data with
  | none => Except.error "KeyError"
  | some lv =>
    let settings1 := { settings with level := lv }
    Except.ok (st0.setUser uid settings1,
      [Event.send (if settings1.language = Language.ru then RU_STYLE_PROMPT else EN_STYLE_PROMPT)
        styleButtons])

/-- The `style_*` branch of `button_handler` (`bot.py` lines 586-620): sets
`style` (default `friend`), calls the scheduling subsystem catching any
exception with the scheduling apology, otherwise generates the
`onboarding_now` text, with the generation apology on a generation or edit
failure. -/
def styleStep (tzValid : String → Bool) (oracle : String → Option String) (uid : Nat)
    (data : String) (settings : UserSettings) (st0 : BotState) :
    Except String (BotState × List Event) :=
  let settings1 := { settings with style := styleMapping data }
  let r := schedule_jobs_for_user tzValid settings1 st0.sched
  let st1 := { st0.setUser uid r.settings with sched := r.sched }
  if r.ok then
    match generate_parsha_text oracle r.settings "onboarding_now" (some get_current_parsha) with
    | some text =>
      Except.ok (st1, [Event.genCall "onboarding_now" get_current_parsha, Event.send text []])
    | none =>
      Except.ok (st1,
        [Event.genCall "onboarding_now" get_current_parsha, Event.send GEN_FAIL_TEXT []])
  else
    Except.ok (st1, [Event.send SCHED_FAIL_TEXT []])

/-- Embedding of `button_handler` (`bot.py` lines 369-620): the onboarding callback state
machine.  Looks up (or lazily creates) the settings of the user, then dispatches
on the payload exactly in source order; an unmatched payload falls through
with no effect beyond the lazy creation. -/
def button_handler (tzValid : String → Bool) (oracle : String → Option String)
    (user_id : Nat) (data : String) (st : BotState) : Except String (BotState × List Event) :=
  let settings := settingsOf st user_id
  let st0 := st.setUser user_id settings
  if data = "lang_ru" then langStep Language.ru user_id settings st0
  else if data = "lang_en" then langStep Language.en user_id settings st0
  else if strStartsWith data "time_" = true then timeStep user_id data settings st0
  else if strStartsWith data "tz_" = true ∧ data ≠ "tz_custom" then
    tzStep tzValid user_id data settings st0
  else if data = "tz_custom" then tzCustomStep user_id settings st0
  else if strStartsWith data "level_" = true then levelStep user_id data settings st0
  else if strStartsWith data "style_" = true then
    styleStep tzValid oracle user_id data settings st0
  else Except.ok (st0, [])

/-- The `/start` handler (`bot.py` lines 326-343): unconditionally stores a fresh
default `UserSettings` for the invoking user and sends the greeting with the
language keyboard. -/
def start (user_id : Nat) (st : BotState) : BotState × List Event :=
  (st.setUser user_id (UserSettings.init user_id), [Event.send START_TEXT langButtons])

/-- The `/help` handler (`bot.py` lines 346-352). -/
def help_command (st : BotState) : BotState × List Event :=
  (st, [Event.send HELP_TEXT []])

/-- The `/parsha` handler (`bot.py` lines 355-364): without settings, a prompt to
run `/start`; otherwise a `manual_parsha` generation whose failure is not
caught (it propagates to the framework, the `Except.error` case). -/
def parsha_command (oracle : String → Option String) (user_id : Nat) (st : BotState) :
    Except String (BotState × List Event) :=
  match st.users user_id with
  | none => Except.ok (st, [Event.send PARSHA_NEED_START []])
  | some settings =>
    match generate_parsha_text oracle settings "manual_parsha" (some get_current_parsha) with
    | none => Except.error "generation error, propagated to the framework"
    | some text =>
      Except.ok (st, [Event.genCall "manual_parsha" get_current_parsha, Event.send text []])

/-- Embedding of `timezone_text_handler` (`bot.py` lines 625-677): ignores free text from
users outside the pending-timezone-entry set; otherwise validates the trimmed
text as a timezone name, with the retry / missing-settings replies of the
source, and continues onboarding with the level keyboard on success. -/
def timezone_text_handler (tzValid : String → Bool) (user_id : Nat) (text : String)
    (st : BotState) : BotState × List Event :=
  if st.await user_id = true then
    let tz_text := text.trim
    match st.users user_id with
    | none =>
      (st.setAwait user_id false, [Event.send TZ_TEXT_NEED_START []])
    | some settings =>
      if tzValid tz_text then
        let settings1 := { settings with timezone := tz_text }
        let st1 := (st.setUser user_id settings1).setAwait user_id false
        (st1,
          [Event.send
            (if settings1.language = Language.ru then RU_LEVEL_PROMPT2 else EN_LEVEL_PROMPT2)
            levelButtons])
      else
        (st,
          [Event.send
            (if settings.language = Language.ru then RU_TZ_RETRY else EN_TZ_RETRY) []])
  else (st, [])

/-- Projection used to observe a handler outcome: the events it produced
(empty for an uncaught exception). -/
def repliesOf (r : Except String (BotState × List Event)) : List Event :=
  match r with
  | Except.ok (_, evs) => evs
  | Except.error _ => []

/-- Test fixture: the scheduler job store at process start, with an `add_job`
that never raises. -/
def freshSched : SchedState :=
  { jobs := [], nextId := 0, calls := 0, failOn := fun _ => false }

/-- Test fixture: an empty job store whose every `add_job` call raises. -/
def faultySched : SchedState :=
  { jobs := [], nextId := 0, calls := 0, failOn := fun _ => true }

/-- Test fixture: the process state right after startup (empty registry,
empty pending set, fresh scheduler). -/
def initialState : BotState :=
  { users := fun _ => none, await := fun _ => false, sched := freshSched }

/-- Test fixture: a finite stand-in for the IANA timezone database, covering
the preset names offered by the bot. -/
def tzValidDemo (name : String) : Bool :=
  name = "Asia/Jerusalem" || name = "Europe/Moscow" || name = "Europe/Berlin" ||
    name = "Asia/Dubai" || name = "America/New_York"

/-- Test fixture: a generation oracle that always answers with fixed text. -/
def oracleDemo (_ : String) : Option String :=
  some " Demo parsha text. "

/-- Test fixture: user 7 mid-onboarding with every pre-style preference set
(language en, morning, Asia/Jerusalem, level 2) and no jobs yet. -/
def s0c : UserSettings :=
  { UserSettings.init 7 with
    language := Language.en
    send_time := SendTime.morning
    timezone := "Asia/Jerusalem"
    level := KnowledgeLevel.level2 }

/-- Test fixture: the process state holding `s0c`, with a scheduler whose
`add_job` raises. -/
def stC2 : BotState :=
  { users := fun u => if u = 7 then some s0c else none
    await := fun _ => false
    sched := faultySched }

/-- Test fixture: user 7 with default settings switched to Russian. -/
def sRu : UserSettings :=
  { UserSettings.init 7 with language := Language.ru }

/-- Test fixture: the process state holding `sRu` and a fresh scheduler. -/
def stRu : BotState :=
  { users := fun u => if u = 7 then some sRu else none
    await := fun _ => false
    sched := freshSched }

/-! Helper lemmas -/

/-- Restatement of `strStartsWith` as a list-prefix condition. -/
lemma strStartsWith_iff (s p : String) : strStartsWith s p = true ↔ p.data <+: s.data := by
  simp [strStartsWith, List.isPrefixOf_iff_prefix]

/-- A string starting with `p` is distinct from any string that does not. -/
lemma startsWith_ne (s p q : String) (hs : strStartsWith s p = true)
    (hq : strStartsWith q p = false) : s ≠ q := by
  intro h
  subst h
  rw [hs] at hq
  cases hq

/-- A string starting with `p` does not start with `q` when neither of `p`,
`q` starts with the other. -/
lemma startsWith_disjoint (s p q : String) (hp : strStartsWith s p = true)
    (h1 : strStartsWith p q = false) (h2 : strStartsWith q p = false) :
    strStartsWith s q = false := by
  rw [strStartsWith_iff] at hp
  cases hq : strStartsWith s q with
  | false => rfl
  | true =>
    rw [strStartsWith_iff] at hq
    rcases List.prefix_or_prefix_of_prefix hq hp with h | h
    · rw [← strStartsWith_iff] at h
      rw [h] at h1
      cases h1
    · rw [← strStartsWith_iff] at h
      rw [h] at h2
      cases h2

/-- Appending anything to `p` yields a string starting with `p`. -/
lemma strStartsWith_append (p s : String) : strStartsWith (p ++ s) p = true := by
  rw [strStartsWith_iff, String.data_append]
  exact List.prefix_append _ _

/-- String concatenation is left-cancellative. -/
lemma string_append_left_cancel (p a b : String) (h : p ++ a = p ++ b) : a = b := by
  have hd : p.data ++ a.data = p.data ++ b.data := by
    have := congrArg String.data h
    rwa [String.data_append, String.data_append] at this
  exact String.ext (List.append_cancel_left hd)

/-- Removing the prefix undoes a concatenation on the left. -/
lemma strRemovePrefix_append (p s : String) : strRemovePrefix (p ++ s) p = s := by
  rw [strRemovePrefix, if_pos (strStartsWith_append p s), String.data_append]
  rw [List.drop_left]

/-- One step of the cancellation loop does nothing on an empty job store. -/
lemma removeJobState_jobs_nil (sch : SchedState) (jid : Nat) (h : sch.jobs = []) :
    removeJobState sch jid = sch := by
  obtain ⟨jobs, n, c, f⟩ := sch
  replace h : jobs = [] := h
  subst h
  rfl

/-- Unfolding equation of the cancellation loop, empty list. -/
lemma cancelAll_nil (sch : SchedState) : cancelAll sch [] = sch := rfl

/-- Unfolding equation of the cancellation loop, cons. -/
lemma cancelAll_cons (sch : SchedState) (kv : String × Nat) (rest : List (String × Nat)) :
    cancelAll sch (kv :: rest) = cancelAll (removeJobState sch kv.2) rest := rfl

/-- The cancellation loop does nothing on an empty job store: every
`remove_job` raises a swallowed lookup error. -/
lemma cancelAll_of_jobs_nil (ids : List (String × Nat)) (sch : SchedState)
    (h : sch.jobs = []) : cancelAll sch ids = sch := by
  induction ids generalizing sch with
  | nil => rfl
  | cons kv rest ih =>
    rw [cancelAll_cons, removeJobState_jobs_nil sch kv.2 h]
    exact ih sch h

/-- On a raised scheduling exception, `finishSchedule` hands back the
settings exactly as they were after the `job_ids` reset. -/
lemma finishSchedule_fail (settings2 : UserSettings)
    (r : Except SchedState ((Nat × Nat × Nat) × SchedState))
    (h : (finishSchedule settings2 r).ok = false) :
    (finishSchedule settings2 r).settings = settings2 := by
  cases r with
  | error schedF => rfl
  | ok v =>
    obtain ⟨⟨jobSun, jobMid, jobFri⟩, sched4⟩ := v
    simp [finishSchedule] at h

/-- The function `finishSchedule` only ever touches the `job_ids` field of the settings. -/
lemma finishSchedule_fields (settings2 : UserSettings)
    (r : Except SchedState ((Nat × Nat × Nat) × SchedState)) :
    (finishSchedule settings2 r).settings.user_id = settings2.user_id ∧
    (finishSchedule settings2 r).settings.language = settings2.language ∧
    (finishSchedule settings2 r).settings.level = settings2.level ∧
    (finishSchedule settings2 r).settings.style = settings2.style ∧
    (finishSchedule settings2 r).settings.send_time = settings2.send_time ∧
    (finishSchedule settings2 r).settings.timezone = settings2.timezone := by
  cases r with
  | error schedF => exact ⟨rfl, rfl, rfl, rfl, rfl, rfl⟩
  | ok v =>
    obtain ⟨⟨jobSun, jobMid, jobFri⟩, sched4⟩ := v
    exact ⟨rfl, rfl, rfl, rfl, rfl, rfl⟩

/-- When `schedule_jobs_for_user` raises (one of the `add_job` calls fails),
the caller observes the settings with `job_ids` already reset to empty and
the timezone already resolved (with the silent `"Asia/Dubai"` fallback); no
other field was touched. -/
lemma schedule_fail_settings (tzValid : String → Bool) (s : UserSettings)
    (sch : SchedState)
    (h : (schedule_jobs_for_user tzValid s sch).ok = false) :
    (schedule_jobs_for_user tzValid s sch).settings =
      { s with
        job_ids := []
        timezone := if tzValid s.timezone then s.timezone else "Asia/Dubai" } := by
  simp only [schedule_jobs_for_user] at h ⊢
  rw [finishSchedule_fail _ _ h]
  by_cases htz : tzValid s.timezone = true <;> simp [htz]

/-- The function `schedule_jobs_for_user` never changes the preference fields of the
settings record, whatever the outcome. -/
lemma schedule_settings_fields (tzValid : String → Bool) (s : UserSettings)
    (sch : SchedState) :
    (schedule_jobs_for_user tzValid s sch).settings.user_id = s.user_id ∧
    (schedule_jobs_for_user tzValid s sch).settings.language = s.language ∧
    (schedule_jobs_for_user tzValid s sch).settings.level = s.level ∧
    (schedule_jobs_for_user tzValid s sch).settings.style = s.style ∧
    (schedule_jobs_for_user tzValid s sch).settings.send_time = s.send_time := by
  simp only [schedule_jobs_for_user]
  have hf := finishSchedule_fields
    (if tzValid ({ s with job_ids := [] } : UserSettings).timezone then
      ({ s with job_ids := [] } : UserSettings)
    else { ({ s with job_ids := [] } : UserSettings) with timezone := "Asia/Dubai" })
    (addWeeklyJobs (cancelAll sch s.job_ids)
      (map_send_time_to_hour_minute ({ s with job_ids := [] } : UserSettings).send_time).1
      (map_send_time_to_hour_minute ({ s with job_ids := [] } : UserSettings).send_time).2
      (if tzValid ({ s with job_ids := [] } : UserSettings).timezone then
          ({ s with job_ids := [] } : UserSettings)
        else { ({ s with job_ids := [] } : UserSettings) with timezone := "Asia/Dubai" }).timezone
      (if tzValid ({ s with job_ids := [] } : UserSettings).timezone then
          ({ s with job_ids := [] } : UserSettings)
        else { ({ s with job_ids := [] } : UserSettings) with timezone := "Asia/Dubai" }).user_id)
  obtain ⟨h1, h2, h3, h4, h5, h6⟩ := hf
  refine ⟨?_, ?_, ?_, ?_, ?_⟩ <;>
    first
      | (rw [h1]; by_cases htz : tzValid s.timezone = true <;> simp [htz])
      | (rw [h2]; by_cases htz : tzValid s.timezone = true <;> simp [htz])
      | (rw [h3]; by_cases htz : tzValid s.timezone = true <;> simp [htz])
      | (rw [h4]; by_cases htz : tzValid s.timezone = true <;> simp [htz])
      | (rw [h5]; by_cases htz : tzValid s.timezone = true <;> simp [htz])

/-- The function `schedule_jobs_for_user` never changes the `style` field. -/
lemma schedule_settings_style (tzValid : String → Bool) (s : UserSettings)
    (sch : SchedState) :
    (schedule_jobs_for_user tzValid s sch).settings.style = s.style :=
  (schedule_settings_fields tzValid s sch).2.2.2.1

/-- Dispatch: a payload starting with `time_` reaches the `time_*` branch. -/
lemma bh_time (tzValid : String → Bool) (oracle : String → Option String) (uid : Nat)
    (data : String) (st : BotState) (h : strStartsWith data "time_" = true) :
    button_handler tzValid oracle uid data st =
      timeStep uid data (settingsOf st uid) (st.setUser uid (settingsOf st uid)) := by
  have h1 : data ≠ "lang_ru" := startsWith_ne data "time_" "lang_ru" h (by decide)
  have h2 : data ≠ "lang_en" := startsWith_ne data "time_" "lang_en" h (by decide)
  simp [button_handler, h1, h2, h]

/-- Dispatch: `tz_<name>` with `<name> ≠ custom` reaches the preset-timezone
branch. -/
lemma bh_tz (tzValid : String → Bool) (oracle : String → Option String) (uid : Nat)
    (name : String) (st : BotState) (hname : name ≠ "custom") :
    button_handler tzValid oracle uid ("tz_" ++ name) st =
      tzStep tzValid uid ("tz_" ++ name) (settingsOf st uid)
        (st.setUser uid (settingsOf st uid)) := by
  have h : strStartsWith ("tz_" ++ name) "tz_" = true := strStartsWith_append "tz_" name
  have h1 : ("tz_" ++ name) ≠ "lang_ru" :=
    startsWith_ne ("tz_" ++ name) "tz_" "lang_ru" h (by decide)
  have h2 : ("tz_" ++ name) ≠ "lang_en" :=
    startsWith_ne ("tz_" ++ name) "tz_" "lang_en" h (by decide)
  have h3 : strStartsWith ("tz_" ++ name) "time_" = false :=
    startsWith_disjoint ("tz_" ++ name) "tz_" "time_" h (by decide) (by decide)
  have h5 : ("tz_" ++ name) ≠ "tz_custom" := by
    intro he
    exact hname (string_append_left_cancel "tz_" name "custom" (he.trans (by decide)))
  simp [button_handler, h1, h2, h3, h5, h]

/-- Dispatch: a payload starting with `level_` reaches the `level_*` branch. -/
lemma bh_level (tzValid : String → Bool) (oracle : String → Option String) (uid : Nat)
    (data : String) (st : BotState) (h : strStartsWith data "level_" = true) :
    button_handler tzValid oracle uid data st =
      levelStep uid data (settingsOf st uid) (st.setUser uid (settingsOf st uid)) := by
  have h1 : data ≠ "lang_ru" := startsWith_ne data "level_" "lang_ru" h (by decide)
  have h2 : data ≠ "lang_en" := startsWith_ne data "level_" "lang_en" h (by decide)
  have h3 : strStartsWith data "time_" = false :=
    startsWith_disjoint data "level_" "time_" h (by decide) (by decide)
  have h4 : strStartsWith data "tz_" = false :=
    startsWith_disjoint data "level_" "tz_" h (by decide) (by decide)
  have h5 : data ≠ "tz_custom" := startsWith_ne data "level_" "tz_custom" h (by decide)
  simp [button_handler, h1, h2, h3, h4, h5, h]

/-- Dispatch: a payload starting with `style_` reaches the `style_*` branch. -/
lemma bh_style (tzValid : String → Bool) (oracle : String → Option String) (uid : Nat)
    (data : String) (st : BotState) (h : strStartsWith data "style_" = true) :
    button_handler tzValid oracle uid data st =
      styleStep tzValid oracle uid data (settingsOf st uid)
        (st.setUser uid (settingsOf st uid)) := by
  have h1 : data ≠ "lang_ru" := startsWith_ne data "style_" "lang_ru" h (by decide)
  have h2 : data ≠ "lang_en" := startsWith_ne data "style_" "lang_en" h (by decide)
  have h3 : strStartsWith data "time_" = false :=
    startsWith_disjoint data "style_" "time_" h (by decide) (by decide)
  have h4 : strStartsWith data "tz_" = false :=
    startsWith_disjoint data "style_" "tz_" h (by decide) (by decide)
  have h5 : data ≠ "tz_custom" := startsWith_ne data "style_" "tz_custom" h (by decide)
  have h6 : strStartsWith data "level_" = false :=
    startsWith_disjoint data "style_" "level_" h (by decide) (by decide)
  simp [button_handler, h1, h2, h3, h4, h5, h6, h]

/-! Claim theorems -/

/-- Claim C4: `map_send_time_to_hour_minute` returns exactly `(9,0)` for
`morning`, `(13,0)` for `day`, `(20,0)` for `evening`, `(12,0)` for
`anytime`, and `(12,0)` for any value not among the first three (the final
return of the if-chain is the catch-all). -/
theorem map_send_time_to_hour_minute_spec (t : SendTime) :
    map_send_time_to_hour_minute SendTime.morning = (9, 0) ∧
    map_send_time_to_hour_minute SendTime.day = (13, 0) ∧
    map_send_time_to_hour_minute SendTime.evening = (20, 0) ∧
    map_send_time_to_hour_minute SendTime.anytime = (12, 0) ∧
    (t ≠ SendTime.morning → t ≠ SendTime.day → t ≠ SendTime.evening →
      map_send_time_to_hour_minute t = (12, 0)) := by
  cases t <;> exact (by decide)

/-- Witness for C4 at the concrete value `anytime`. -/
theorem map_send_time_to_hour_minute_spec_witness :
    SendTime.anytime ≠ SendTime.morning ∧
    map_send_time_to_hour_minute SendTime.anytime = (12, 0) :=
  ⟨by decide,
    (map_send_time_to_hour_minute_spec SendTime.anytime).2.2.2.2 (by decide) (by decide)
      (by decide)⟩

/-- Claim C5: for a user with no entry in the registry, `/parsha` replies
with the prompt to run `/start`, performs no generation call and changes
nothing (the returned state is the input state and the events are exactly
that one reply). -/
theorem parsha_command_without_settings (oracle : String → Option String) (uid : Nat)
    (st : BotState) (h : st.users uid = none) :
    parsha_command oracle uid st = Except.ok (st, [Event.send PARSHA_NEED_START []]) := by
  simp [parsha_command, h]

/-- Witness for C5 on the fresh process state. -/
theorem parsha_command_without_settings_witness :
    initialState.users 5 = none ∧
    parsha_command oracleDemo 5 initialState =
      Except.ok (initialState, [Event.send PARSHA_NEED_START []]) :=
  ⟨rfl, parsha_command_without_settings oracleDemo 5 initialState rfl⟩

/-- Claim C6: free text from a user outside the pending-timezone-entry set
produces no reply and leaves the whole state (registry, pending set,
scheduler) unchanged. -/
theorem timezone_text_handler_not_awaited (tzValid : String → Bool) (uid : Nat)
    (text : String) (st : BotState) (h : st.await uid = false) :
    timezone_text_handler tzValid uid text st = (st, []) := by
  simp [timezone_text_handler, h]

/-- Witness for C6 on the fresh process state. -/
theorem timezone_text_handler_not_awaited_witness :
    initialState.await 5 = false ∧
    timezone_text_handler tzValidDemo 5 "Europe/Berlin" initialState =
      (initialState, []) :=
  ⟨rfl, timezone_text_handler_not_awaited tzValidDemo 5 "Europe/Berlin" initialState rfl⟩

/-- Claim C7: `/start` stores a fresh default `UserSettings` for the invoking
user — `language=ru`, `level=1`, `style=friend`, `send_time=anytime`,
`timezone="Asia/Dubai"`, empty `job_ids` — discarding whatever was stored
before (the state `st` is arbitrary). -/
theorem start_resets_settings (uid : Nat) (st : BotState) :
    (start uid st).1.users uid = some (UserSettings.init uid) ∧
    (UserSettings.init uid).language = Language.ru ∧
    (UserSettings.init uid).level = KnowledgeLevel.level1 ∧
    (UserSettings.init uid).level.toInt = 1 ∧
    (UserSettings.init uid).style = Style.friend ∧
    (UserSettings.init uid).send_time = SendTime.anytime ∧
    (UserSettings.init uid).timezone = "Asia/Dubai" ∧
    (UserSettings.init uid).job_ids = [] := by
  refine ⟨?_, rfl, rfl, rfl, rfl, rfl, rfl, rfl⟩
  simp [start, BotState.setUser]

/-- Claim C10: `build_user_prompt` selects the Russian language directive
exactly for the language string `"ru"`; every other language string (not
only `"en"`) yields a prompt beginning with the English directive. -/
theorem build_user_prompt_language_directive (language : String) (level : Int)
    (style parsha_name mode : String) :
    (language = "ru" →
      ∃ r, build_user_prompt language level style parsha_name mode =
        "Пиши по-русски." ++ r) ∧
    (language ≠ "ru" →
      ∃ r, build_user_prompt language level style parsha_name mode =
        "Write in clear, simple English." ++ r) := by
  constructor
  · intro h
    subst h
    exact ⟨_, rfl⟩
  · intro h
    unfold build_user_prompt
    rw [if_neg h]
    exact ⟨_, rfl⟩

/-- Witness for C10 at `"ru"` and at the unrecognized language `"fr"`. -/
theorem build_user_prompt_language_directive_witness :
    (∃ r, build_user_prompt "ru" 1 "friend" "Vayishlach" "sunday_main" =
      "Пиши по-русски." ++ r) ∧
    ("fr" : String) ≠ "ru" ∧
    (∃ r, build_user_prompt "fr" 2 "story" "Vayishlach" "friday_toast" =
      "Write in clear, simple English." ++ r) :=
  ⟨(build_user_prompt_language_directive "ru" 1 "friend" "Vayishlach" "sunday_main").1 rfl,
    by decide,
    (build_user_prompt_language_directive "fr" 2 "story" "Vayishlach" "friday_toast").2
      (by decide)⟩

/-- Claim C1: starting from an empty job store (and a scheduler whose
`add_job` does not raise), two successive invocations of
`schedule_jobs_for_user` for the same user leave exactly three jobs in the
scheduler — the first invocation creates three, the second cancels every
identifier recorded in `settings.job_ids` (swallowing lookup errors) before
creating three new ones, recorded under `sunday`, `midweek`, `friday`. -/
theorem schedule_twice_three_jobs (tzValid : String → Bool) (u0 : UserSettings)
    (sch0 : SchedState) (hjobs : sch0.jobs = []) (hfail : ∀ n, sch0.failOn n = false) :
    (schedule_jobs_for_user tzValid u0 sch0).ok = true ∧
    (schedule_jobs_for_user tzValid u0 sch0).sched.jobs.length = 3 ∧
    (schedule_jobs_for_user tzValid
        (schedule_jobs_for_user tzValid u0 sch0).settings
        (schedule_jobs_for_user tzValid u0 sch0).sched).ok = true ∧
    (schedule_jobs_for_user tzValid
        (schedule_jobs_for_user tzValid u0 sch0).settings
        (schedule_jobs_for_user tzValid u0 sch0).sched).sched.jobs.length = 3 ∧
    (schedule_jobs_for_user tzValid
        (schedule_jobs_for_user tzValid u0 sch0).settings
        (schedule_jobs_for_user tzValid u0 sch0).sched).settings.job_ids.map Prod.fst =
      ["sunday", "midweek", "friday"] := by
  obtain ⟨jobs0, n0, c0, f0⟩ := sch0
  replace hjobs : jobs0 = [] := hjobs
  subst hjobs
  replace hfail : ∀ n, f0 n = false := hfail
  simp [schedule_jobs_for_user, addWeeklyJobs, finishSchedule, addJob, hfail,
    cancelAll_of_jobs_nil, cancelAll_cons, cancelAll_nil, removeJobState, removeJobList]

/-- Witness for C1: user 5 with default settings against the fresh scheduler. -/
theorem schedule_twice_three_jobs_witness :
    freshSched.jobs = [] ∧
    (∀ n, freshSched.failOn n = false) ∧
    ((schedule_jobs_for_user tzValidDemo (UserSettings.init 5) freshSched).ok = true ∧
      (schedule_jobs_for_user tzValidDemo (UserSettings.init 5) freshSched).sched.jobs.length =
        3 ∧
      (schedule_jobs_for_user tzValidDemo
          (schedule_jobs_for_user tzValidDemo (UserSettings.init 5) freshSched).settings
          (schedule_jobs_for_user tzValidDemo (UserSettings.init 5) freshSched).sched).ok =
        true ∧
      (schedule_jobs_for_user tzValidDemo
          (schedule_jobs_for_user tzValidDemo (UserSettings.init 5) freshSched).settings
          (schedule_jobs_for_user tzValidDemo (UserSettings.init 5)
            freshSched).sched).sched.jobs.length = 3 ∧
      (schedule_jobs_for_user tzValidDemo
          (schedule_jobs_for_user tzValidDemo (UserSettings.init 5) freshSched).settings
          (schedule_jobs_for_user tzValidDemo (UserSettings.init 5)
            freshSched).sched).settings.job_ids.map Prod.fst =
        ["sunday", "midweek", "friday"]) :=
  ⟨rfl, fun _ => rfl,
    schedule_twice_three_jobs tzValidDemo (UserSettings.init 5) freshSched rfl fun _ => rfl⟩

/-- Claim C2: when the scheduling subsystem raises while a `style_*` payload
is handled (for a user whose stored timezone passes validation, as every
timezone stored by the onboarding steps does), the handler returns the
scheduling-failure apology as the only output — no generation call — and
the stored settings keep every preference field from the completed steps,
with the style of this step applied and `job_ids` left as the empty
mapping. -/
theorem style_step_scheduler_failure_state (tzValid : String → Bool)
    (oracle : String → Option String) (uid : Nat) (st : BotState) (s0 : UserSettings)
    (data : String) (hdata : strStartsWith data "style_" = true)
    (hs : st.users uid = some s0) (htz : tzValid s0.timezone = true)
    (hfail :
      (schedule_jobs_for_user tzValid { s0 with style := styleMapping data } st.sched).ok =
        false) :
    ∃ stOut, button_handler tzValid oracle uid data st =
        Except.ok (stOut, [Event.send SCHED_FAIL_TEXT []]) ∧
      ∃ s1, stOut.users uid = some s1 ∧
        s1.language = s0.language ∧ s1.send_time = s0.send_time ∧
        s1.timezone = s0.timezone ∧ s1.level = s0.level ∧
        s1.style = styleMapping data ∧ s1.job_ids = [] := by
  rw [bh_style tzValid oracle uid data st hdata]
  have hset : settingsOf st uid = s0 := by simp [settingsOf, hs]
  rw [hset]
  have hsched : (st.setUser uid s0).sched = st.sched := rfl
  simp only [styleStep, hsched, hfail, if_false, Bool.false_eq_true]
  refine ⟨_, rfl, ?_⟩
  refine ⟨(schedule_jobs_for_user tzValid { s0 with style := styleMapping data } st.sched).settings,
    by simp [BotState.setUser], ?_⟩
  rw [schedule_fail_settings tzValid { s0 with style := styleMapping data } st.sched hfail]
  have htz2 : tzValid ({ s0 with style := styleMapping data } : UserSettings).timezone = true :=
    htz
  simp [htz2]

/-- Witness for C2: user 7 (fixture `stC2`) whose scheduler raises on every
`add_job`, tapping `style_story`. -/
theorem style_step_scheduler_failure_state_witness :
    strStartsWith "style_story" "style_" = true ∧
    stC2.users 7 = some s0c ∧
    tzValidDemo s0c.timezone = true ∧
    (schedule_jobs_for_user tzValidDemo { s0c with style := styleMapping "style_story" }
        stC2.sched).ok = false ∧
    (∃ stOut, button_handler tzValidDemo oracleDemo 7 "style_story" stC2 =
        Except.ok (stOut, [Event.send SCHED_FAIL_TEXT []]) ∧
      ∃ s1, stOut.users 7 = some s1 ∧
        s1.language = s0c.language ∧ s1.send_time = s0c.send_time ∧
        s1.timezone = s0c.timezone ∧ s1.level = s0c.level ∧
        s1.style = styleMapping "style_story" ∧ s1.job_ids = []) :=
  ⟨by decide, by decide, by decide, by decide,
    style_step_scheduler_failure_state tzValidDemo oracleDemo 7 stC2 s0c "style_story"
      (by decide) (by decide) (by decide) (by decide)⟩

/-- Claim C3: for any preset payload `tz_<name>` with `<name> ≠ custom`, the
handler stores `<name>` as the timezone when it validates against the
timezone database, and silently stores `"Asia/Dubai"` — never the invalid
string — when it does not. -/
theorem tz_preset_invalid_falls_back (tzValid : String → Bool)
    (oracle : String → Option String) (uid : Nat) (st : BotState) (name : String)
    (hname : name ≠ "custom") :
    ∃ stOut evs, button_handler tzValid oracle uid ("tz_" ++ name) st =
        Except.ok (stOut, evs) ∧
      ∃ s1, stOut.users uid = some s1 ∧
        s1.timezone = (if tzValid name = true then name else "Asia/Dubai") ∧
        (tzValid name = false → s1.timezone = "Asia/Dubai") := by
  rw [bh_tz tzValid oracle uid name st hname]
  simp only [tzStep, strRemovePrefix_append]
  by_cases hv : tzValid name = true
  · simp only [hv, if_true]
    refine ⟨_, _, rfl, { (settingsOf st uid) with timezone := name }, ?_, ?_, ?_⟩
    · simp [BotState.setUser]
    · simp [hv]
    · intro hfalse
      cases hfalse
  · simp only [hv, if_false]
    refine ⟨_, _, rfl, { (settingsOf st uid) with timezone := "Asia/Dubai" }, ?_, ?_,
      fun _ => rfl⟩
    · simp [BotState.setUser]
    · simp [hv]

/-- Witness for C3: the invalid preset `tz_Mars/Nowhere` on the fresh
process state. -/
theorem tz_preset_invalid_falls_back_witness :
    ("Mars/Nowhere" : String) ≠ "custom" ∧
    (∃ stOut evs, button_handler tzValidDemo oracleDemo 7 ("tz_" ++ "Mars/Nowhere")
        initialState = Except.ok (stOut, evs) ∧
      ∃ s1, stOut.users 7 = some s1 ∧
        s1.timezone = (if tzValidDemo "Mars/Nowhere" = true then "Mars/Nowhere"
          else "Asia/Dubai") ∧
        (tzValidDemo "Mars/Nowhere" = false → s1.timezone = "Asia/Dubai")) :=
  ⟨by decide,
    tz_preset_invalid_falls_back tzValidDemo oracleDemo 7 initialState "Mars/Nowhere"
      (by decide)⟩

/-- Counterexample to claim C8 as stated: for the Russian-language user of
fixture `stRu`, handling `time_morning` offers a timezone keyboard that
contains `tz_Europe/Berlin` — so Berlin is NOT offered only when the
language is `en` — and the English keyboard carries 5 buttons in total
(4 presets plus custom), not 5 presets plus custom. -/
theorem tz_keyboard_claim_counterexample :
    stRu.users 7 = some { UserSettings.init 7 with language := Language.ru } ∧
    repliesOf (button_handler tzValidDemo oracleDemo 7 "time_morning" stRu) =
      [Event.send RU_TZ_PROMPT ruTzButtons] ∧
    ruTzButtons.contains "tz_Europe/Berlin" = true ∧
    enTzButtons.length = 5 := by
  refine ⟨rfl, ?_, by decide, by decide⟩
  rfl

/-- Claim C8 (amended): after a valid `time_*` payload the handler shows the
timezone prompt of the language of the user; the Russian keyboard offers the 5
presets Jerusalem, Moscow, Berlin, Dubai, New York plus the custom option,
the English keyboard offers the 4 presets Jerusalem, Berlin, Dubai, New York
plus the custom option — Moscow is offered only for `ru`, while Berlin is
offered in both languages. -/
theorem tz_keyboard_layout (tzValid : String → Bool) (oracle : String → Option String)
    (uid : Nat) (st : BotState) (data : String)
    (hdata : data = "time_morning" ∨ data = "time_day" ∨ data = "time_evening" ∨
      data = "time_anytime") :
    ∃ stOut, button_handler tzValid oracle uid data st =
        Except.ok (stOut,
          [Event.send
            (if (settingsOf st uid).language = Language.ru then RU_TZ_PROMPT
              else EN_TZ_PROMPT)
            (if (settingsOf st uid).language = Language.ru then ruTzButtons
              else enTzButtons)]) ∧
      ruTzButtons = ["tz_Asia/Jerusalem", "tz_Europe/Moscow", "tz_Europe/Berlin",
        "tz_Asia/Dubai", "tz_America/New_York", "tz_custom"] ∧
      enTzButtons = ["tz_Asia/Jerusalem", "tz_Europe/Berlin", "tz_Asia/Dubai",
        "tz_America/New_York", "tz_custom"] := by
  obtain h | h | h | h := hdata <;> subst h <;>
    rw [bh_time _ _ _ _ _ (by decide)] <;>
    cases hl : (settingsOf st uid).language <;>
    simp [timeStep, timeMapping, hl, ruTzButtons, enTzButtons]

/-- Witness for C8 (amended): `time_day` for a fresh (default-Russian) user. -/
theorem tz_keyboard_layout_witness :
    (("time_day" : String) = "time_morning" ∨ ("time_day" : String) = "time_day" ∨
      ("time_day" : String) = "time_evening" ∨ ("time_day" : String) = "time_anytime") ∧
    (∃ stOut, button_handler tzValidDemo oracleDemo 3 "time_day" initialState =
        Except.ok (stOut,
          [Event.send
            (if (settingsOf initialState 3).language = Language.ru then RU_TZ_PROMPT
              else EN_TZ_PROMPT)
            (if (settingsOf initialState 3).language = Language.ru then ruTzButtons
              else enTzButtons)]) ∧
      ruTzButtons = ["tz_Asia/Jerusalem", "tz_Europe/Moscow", "tz_Europe/Berlin",
        "tz_Asia/Dubai", "tz_America/New_York", "tz_custom"] ∧
      enTzButtons = ["tz_Asia/Jerusalem", "tz_Europe/Berlin", "tz_Asia/Dubai",
        "tz_America/New_York", "tz_custom"]) :=
  ⟨Or.inr (Or.inl rfl),
    tz_keyboard_layout tzValidDemo oracleDemo 3 initialState "time_day"
      (Or.inr (Or.inl rfl))⟩

/-- Claim C9: payloads starting with `time_` outside the four time options,
and payloads starting with `level_` outside the three level options, make
the callback handler raise `KeyError` from the unguarded dict lookup —
while any `style_*` payload never raises: the `mapping.get` fallback stores
`styleMapping data` (which is `friend` for any unrecognized `style_*`
payload). -/
theorem unrecognized_time_level_payloads_raise (tzValid : String → Bool)
    (oracle : String → Option String) (uid : Nat) (st : BotState)
    (dataT dataL dataS : String)
    (hT : strStartsWith dataT "time_" = true) (hT1 : dataT ≠ "time_morning")
    (hT2 : dataT ≠ "time_day") (hT3 : dataT ≠ "time_evening")
    (hT4 : dataT ≠ "time_anytime")
    (hL : strStartsWith dataL "level_" = true) (hL1 : dataL ≠ "level_1")
    (hL2 : dataL ≠ "level_2") (hL3 : dataL ≠ "level_3")
    (hS : strStartsWith dataS "style_" = true)
    (hS1 : dataS ≠ "style_friend") (hS2 : dataS ≠ "style_story")
    (hS3 : dataS ≠ "style_rabbi") :
    button_handler tzValid oracle uid dataT st = Except.error "KeyError" ∧
    button_handler tzValid oracle uid dataL st = Except.error "KeyError" ∧
    styleMapping dataS = Style.friend ∧
    (∃ stOut evs s1, button_handler tzValid oracle uid dataS st = Except.ok (stOut, evs) ∧
      stOut.users uid = some s1 ∧ s1.style = Style.friend) := by
  refine ⟨?_, ?_, ?_, ?_⟩
  · rw [bh_time tzValid oracle uid dataT st hT]
    simp [timeStep, timeMapping, hT1, hT2, hT3, hT4]
  · rw [bh_level tzValid oracle uid dataL st hL]
    simp [levelStep, levelMapping, hL1, hL2, hL3]
  · simp [styleMapping, hS1, hS2, hS3]
  · rw [bh_style tzValid oracle uid dataS st hS]
    have hfr : styleMapping dataS = Style.friend := by simp [styleMapping, hS1, hS2, hS3]
    simp only [styleStep]
    have hs1 :
        (schedule_jobs_for_user tzValid
          { settingsOf st uid with style := styleMapping dataS }
          ((st.setUser uid (settingsOf st uid)).sched)).settings.style = Style.friend := by
      rw [schedule_settings_style]
      simp [hfr]
    cases hok :
        (schedule_jobs_for_user tzValid
          { settingsOf st uid with style := styleMapping dataS }
          ((st.setUser uid (settingsOf st uid)).sched)).ok
    · simp only [hok, Bool.false_eq_true, if_false]
      exact ⟨_, _,
        (schedule_jobs_for_user tzValid
          { settingsOf st uid with style := styleMapping dataS }
          ((st.setUser uid (settingsOf st uid)).sched)).settings,
        rfl, by simp [BotState.setUser], hs1⟩
    · simp only [hok, if_true]
      cases hgen :
          generate_parsha_text oracle
            (schedule_jobs_for_user tzValid
              { settingsOf st uid with style := styleMapping dataS }
              ((st.setUser uid (settingsOf st uid)).sched)).settings
            "onboarding_now" (some get_current_parsha) with
      | none =>
        exact ⟨_, _,
          (schedule_jobs_for_user tzValid
            { settingsOf st uid with style := styleMapping dataS }
            ((st.setUser uid (settingsOf st uid)).sched)).settings,
          rfl, by simp [BotState.setUser], hs1⟩
      | some text =>
        exact ⟨_, _,
          (schedule_jobs_for_user tzValid
            { settingsOf st uid with style := styleMapping dataS }
            ((st.setUser uid (settingsOf st uid)).sched)).settings,
          rfl, by simp [BotState.setUser], hs1⟩

/-- Witness for C9: the unmatched payloads `time_noon`, `level_4` and
`style_banana` on the fresh process state. -/
theorem unrecognized_time_level_payloads_raise_witness :
    strStartsWith "time_noon" "time_" = true ∧
    strStartsWith "level_4" "level_" = true ∧
    strStartsWith "style_banana" "style_" = true ∧
    (button_handler tzValidDemo oracleDemo 9 "time_noon" initialState =
        Except.error "KeyError" ∧
      button_handler tzValidDemo oracleDemo 9 "level_4" initialState =
        Except.error "KeyError" ∧
      styleMapping "style_banana" = Style.friend ∧
      (∃ stOut evs s1, button_handler tzValidDemo oracleDemo 9 "style_banana" initialState =
          Except.ok (stOut, evs) ∧
        stOut.users 9 = some s1 ∧ s1.style = Style.friend)) :=
  ⟨by decide, by decide, by decide,
    unrecognized_time_level_payloads_raise tzValidDemo oracleDemo 9 initialState
      "time_noon" "level_4" "style_banana" (by decide) (by decide) (by decide) (by decide)
      (by decide) (by decide) (by decide) (by decide) (by decide) (by decide) (by decide)
      (by decide) (by decide)⟩

end TorahBot
